import Mathlib

/-!
Verification model of `src/index.js`: an Express middleware that serves
Google-Sheets data to TradingView through `/api/sheet-data` (with a
5-minute node-cache) and `/api/refresh-cache`.

Modelling conventions:
* JavaScript numbers are modelled as exact rationals extended with the two
  infinities (`JsNum`); `NaN` is represented by `Option` absence.  Double
  rounding and overflow are abstracted away: none of the verified
  properties depend on them.
* `JSON.parse` (used on `GOOGLE_CREDENTIALS`) is modelled by the JSON
  recognizer `jsonParseOk`, faithful to the ECMA JSON grammar; success of
  the parse is all the handler observes, because the `GoogleAuth` and
  `google.sheets` constructors store their options without validating
  credentials (auth is lazy), so the `try` block of
  `initializeGoogleSheets` throws exactly when `JSON.parse` throws.
* The upstream call `sheets.spreadsheets.values.get` is an oracle: each
  request takes a `FetchResult` describing what the network did
  (`ok` with the optional `response.data.values`, or a thrown error).
* Time is an explicit `Nat` of seconds; node-cache with `stdTTL 300`
  stores an expiry of `now + 300` and treats an entry as live while
  `now ≤ expiry`, and only the single key "sheetData" is ever used, so the
  cache state is an `Option` of (value, expiry).
-/

/-- JavaScript numeric values as produced by `parseFloat`, with `NaN`
represented externally by `Option` absence. -/
inductive JsNum where
  | fin (q : ℚ)
  | posInf
  | negInf
deriving DecidableEq

/-- Whitespace accepted by `parseFloat` (ECMA `StrWhiteSpaceChar`,
restricted to the ASCII members, which are the only ones relevant here). -/
def isSpaceChar (c : Char) : Bool :=
  c = ' ' || c = '\t' || c = '\n' || c = '\r' || c = '\x0b' || c = '\x0c'

/-- Numeric value of a decimal digit character. -/
def digitVal (c : Char) : Nat := c.toNat - 48

/-- Value of a decimal digit string. -/
def natOfDigits (ds : List Char) : Nat := ds.foldl (fun n c => 10 * n + digitVal c) 0

/-- Does the character list begin with the literal word Infinity?
(`parseFloat` accepts `Infinity` / `-Infinity`.) -/
def hasInfinityLead (cs : List Char) : Bool :=
  match cs with
  | 'I' :: 'n' :: 'f' :: 'i' :: 'n' :: 'i' :: 't' :: 'y' :: _ => true
  | _ => false

/-- Value of an exponent digit run, with its sign. -/
def expDigitsVal (neg : Bool) (cs : List Char) : Int :=
  let ds := cs.takeWhile Char.isDigit
  if ds = [] then 0
  else if neg then -(natOfDigits ds : Int) else (natOfDigits ds : Int)

/-- Exponent contributed by the remainder of a numeric literal: an
`e`/`E` marker, optional sign and digits.  When no digit follows the
marker the exponent is not part of the longest numeric prefix, so it
contributes 0 (e.g. `parseFloat "1e"` is 1). -/
def expPart (cs : List Char) : Int :=
  match cs with
  | 'e' :: '+' :: rest => expDigitsVal false rest
  | 'e' :: '-' :: rest => expDigitsVal true rest
  | 'e' :: rest => expDigitsVal false rest
  | 'E' :: '+' :: rest => expDigitsVal false rest
  | 'E' :: '-' :: rest => expDigitsVal true rest
  | 'E' :: rest => expDigitsVal false rest
  | _ => 0

/-- Scale a rational by a power of ten. -/
def applyExp (q : ℚ) (e : Int) : ℚ :=
  if 0 ≤ e then q * (10 : ℚ) ^ e.toNat else q / (10 : ℚ) ^ (-e).toNat

/-- Value of integer digits, fraction digits and exponent. -/
def decimalValue (ip fp : List Char) (e : Int) : ℚ :=
  applyExp ((natOfDigits ip : ℚ) + (natOfDigits fp : ℚ) / (10 : ℚ) ^ fp.length) e

/-- JavaScript `parseFloat`: trim leading whitespace, then take the longest
prefix that is a `StrDecimalLiteral` (optional sign; `Infinity`, or digits
with optional fraction and exponent); `none` models `NaN`. -/
def parseFloat (s : String) : Option JsNum :=
  let cs := s.toList.dropWhile isSpaceChar
  let signed : Bool × List Char :=
    match cs with
    | '-' :: rest => (true, rest)
    | '+' :: rest => (false, rest)
    | _ => (false, cs)
  let neg := signed.1
  let cs2 := signed.2
  if hasInfinityLead cs2 then
    some (if neg then JsNum.negInf else JsNum.posInf)
  else
    let ip := cs2.takeWhile Char.isDigit
    let r1 := cs2.dropWhile Char.isDigit
    let fracSplit : List Char × List Char :=
      match r1 with
      | '.' :: rest => (rest.takeWhile Char.isDigit, rest.dropWhile Char.isDigit)
      | _ => ([], r1)
    let fp := fracSplit.1
    let r2 := fracSplit.2
    if ip = [] && fp = [] then none
    else
      let v := decimalValue ip fp (expPart r2)
      some (JsNum.fin (if neg then -v else v))

/-- Whitespace accepted between JSON tokens by `JSON.parse`. -/
def isJsonWs (c : Char) : Bool :=
  c = ' ' || c = '\t' || c = '\n' || c = '\r'

/-- Skip JSON inter-token whitespace. -/
def skipJsonWs : List Char → List Char
  | [] => []
  | c :: cs => if isJsonWs c then skipJsonWs cs else c :: cs

/-- Hexadecimal digit test, for `\u` escapes. -/
def hexDigit (c : Char) : Bool :=
  c.isDigit || ('a' ≤ c && c ≤ 'f') || ('A' ≤ c && c ≤ 'F')

/-- Recognize the remainder of a JSON string literal (the opening quote is
already consumed); returns the input after the closing quote. -/
def jsonStringRest : List Char → Option (List Char)
  | [] => none
  | '"' :: cs => some cs
  | '\\' :: 'u' :: a :: b :: c :: d :: cs =>
    if hexDigit a && hexDigit b && hexDigit c && hexDigit d then jsonStringRest cs else none
  | '\\' :: e :: cs =>
    if e = '"' || e = '\\' || e = '/' || e = 'b' || e = 'f' || e = 'n' || e = 'r' || e = 't' then
      jsonStringRest cs
    else none
  | c :: cs => if c.toNat < 32 then none else jsonStringRest cs

/-- Recognize a fixed literal tail (`rue`, `alse`, `ull`). -/
def jsonLit : List Char → List Char → Option (List Char)
  | [], cs => some cs
  | _ :: _, [] => none
  | l :: ls, c :: cs => if c = l then jsonLit ls cs else none

/-- Recognize the optional exponent of a JSON number. -/
def jsonExpRest (cs : List Char) : Option (List Char) :=
  match cs with
  | 'e' :: rest | 'E' :: rest =>
    let r2 : List Char :=
      match rest with
      | '+' :: r => r
      | '-' :: r => r
      | _ => rest
    match r2 with
    | c :: _ => if c.isDigit then some (r2.dropWhile Char.isDigit) else none
    | [] => none
  | _ => some cs

/-- Recognize the optional fraction then exponent of a JSON number. -/
def jsonFracRest (cs : List Char) : Option (List Char) :=
  match cs with
  | '.' :: rest =>
    match rest with
    | c :: _ => if c.isDigit then jsonExpRest (rest.dropWhile Char.isDigit) else none
    | [] => none
  | _ => jsonExpRest cs

/-- Recognize a JSON number after the optional minus sign: `0`, or a
nonzero digit followed by digits, then fraction and exponent. -/
def jsonNumberRest (cs : List Char) : Option (List Char) :=
  match cs with
  | '0' :: rest => jsonFracRest rest
  | c :: rest => if c.isDigit then jsonFracRest (rest.dropWhile Char.isDigit) else none
  | [] => none

/-- Parsing modes of the JSON recognizer: a value, the members of an
object (at least one expected), or the elements of an array. -/
inductive JMode where
  | value
  | members
  | elements

/-- Fuel-indexed JSON recognizer; each call consumes at least one
character per two units of fuel, so `2 * length + 2` fuel is enough. -/
def jsonStep : Nat → JMode → List Char → Option (List Char)
  | 0, _, _ => none
  | Nat.succ fuel, JMode.value, cs =>
    match skipJsonWs cs with
    | [] => none
    | c :: rest =>
      if c = '"' then jsonStringRest rest
      else if c = '\x7b' then
        match skipJsonWs rest with
        | '\x7d' :: r2 => some r2
        | r2 => jsonStep fuel JMode.members r2
      else if c = '[' then
        match skipJsonWs rest with
        | ']' :: r2 => some r2
        | r2 => jsonStep fuel JMode.elements r2
      else if c = 't' then jsonLit ['r', 'u', 'e'] rest
      else if c = 'f' then jsonLit ['a', 'l', 's', 'e'] rest
      else if c = 'n' then jsonLit ['u', 'l', 'l'] rest
      else if c = '-' then jsonNumberRest rest
      else if c.isDigit then jsonNumberRest (c :: rest)
      else none
  | Nat.succ fuel, JMode.members, cs =>
    match cs with
    | '"' :: rest =>
      match jsonStringRest rest with
      | none => none
      | some afterKey =>
        match skipJsonWs afterKey with
        | ':' :: afterColon =>
          match jsonStep fuel JMode.value afterColon with
          | none => none
          | some afterVal =>
            match skipJsonWs afterVal with
            | ',' :: afterComma => jsonStep fuel JMode.members (skipJsonWs afterComma)
            | '\x7d' :: r2 => some r2
            | _ => none
        | _ => none
    | _ => none
  | Nat.succ fuel, JMode.elements, cs =>
    match jsonStep fuel JMode.value cs with
    | none => none
    | some afterVal =>
      match skipJsonWs afterVal with
      | ',' :: afterComma => jsonStep fuel JMode.elements afterComma
      | ']' :: r2 => some r2
      | _ => none

/-- Model of `JSON.parse s` succeeding: the whole string is one JSON value
surrounded by whitespace. -/
def jsonParseOk (s : String) : Bool :=
  let cs := s.toList
  match jsonStep (2 * cs.length + 2) JMode.value cs with
  | some rest => skipJsonWs rest = []
  | none => false

/-- One raw spreadsheet row, as the Sheets API returns it: a list of cell
strings; `row[1]` is `undefined` exactly when the list has fewer than two
entries. -/
abbrev Row := List String

/-- One step of the `dataRows.forEach` loop of `src/index.js` lines 82-91:
skip the row when `row[1]` is `undefined` or the empty string, parse with
`parseFloat`, skip on `NaN`, otherwise push. -/
def pushRow (c : List JsNum) (row : Row) : List JsNum :=
  match row[1]? with
  | none => c
  | some cell =>
    if cell = "" then c
    else
      match parseFloat cell with
      | none => c
      | some v => c ++ [v]

/-- The formatting loop of the handler: drop the header row
(`values.slice(1)`), then fold `pushRow` over the remaining rows. -/
def formatValues (values : List Row) : List JsNum :=
  (values.drop 1).foldl pushRow []

/-- The contribution of one row as §4.3 of the spec describes it with the
one correction that only `NaN` parses are skipped (non-finite parses such
as `Infinity` are kept, since the code tests `isNaN` alone). -/
def rowValue (row : Row) : Option JsNum :=
  match row[1]? with
  | none => none
  | some cell => if cell = "" then none else parseFloat cell

/-- The formatter output as the amended claim words it. -/
def specValues (values : List Row) : List JsNum :=
  (values.drop 1).filterMap rowValue

/-- The contribution of one row as claim C3 words it verbatim: only cells
that parse as a FINITE number are kept. -/
def claimFiniteValue (row : Row) : Option JsNum :=
  match row[1]? with
  | none => none
  | some cell =>
    if cell = "" then none
    else
      match parseFloat cell with
      | some (JsNum.fin q) => some (JsNum.fin q)
      | _ => none

/-- The formatter output as claim C3 states it (finite parses only). -/
def claimFiniteValues (values : List Row) : List JsNum :=
  (values.drop 1).filterMap claimFiniteValue

/-- JSON values appearing in this server's response bodies. -/
inductive JVal where
  | str (s : String)
  | nums (xs : List JsNum)
deriving DecidableEq

/-- A JSON object body, as an ordered list of (field name, value) pairs:
field names are observable. -/
abbrev Body := List (String × JVal)

/-- The fixed numeric series of `mockData` (`src/index.js` line 50). -/
def mockValues : List JsNum :=
  [JsNum.fin 100, JsNum.fin 105, JsNum.fin 95, JsNum.fin 110, JsNum.fin 115,
   JsNum.fin 105, JsNum.fin 100, JsNum.fin 90, JsNum.fin 95, JsNum.fin 120]

/-- `mockData` of `src/index.js` lines 48-51. -/
def mockBody : Body :=
  [("s", JVal.str "ok"), ("c", JVal.nums mockValues)]

/-- `formattedData` of `src/index.js` lines 77-80: field `s` (status) and
field `c` (values). -/
def formattedBody (vs : List JsNum) : Body :=
  [("s", JVal.str "ok"), ("c", JVal.nums vs)]

/-- An HTTP response: status code, JSON body, and whether the
`Access-Control-Allow-Origin` header was set. -/
structure Response where
  status : Nat
  body : Body
  corsHeader : Bool
deriving DecidableEq

/-- The node-cache instance restricted to its single key "sheetData":
either absent or a stored body with its expiry time (seconds). -/
abbrev CacheState := Option (Body × Nat)

/-- `cache.get("sheetData")` at time `now`: a stored entry is returned
while unexpired (node-cache treats `expiry < now` as expired). -/
def cacheGet (c : CacheState) (now : Nat) : Option Body :=
  match c with
  | some (v, e) => if now ≤ e then some v else none
  | none => none

/-- `cache.set("sheetData", v)` at time `now` with `stdTTL := 300`. -/
def cacheSet (v : Body) (now : Nat) : CacheState := some (v, now + 300)

/-- `cache.del("sheetData")`. -/
def cacheDel (_ : CacheState) : CacheState := (none : CacheState)

/-- The environment variables the handler reads.  `SHEET_ID` and
`SHEET_RANGE` are only passed through to the upstream call, which the
model treats as an oracle, so only `GOOGLE_CREDENTIALS` is observable. -/
structure Env where
  googleCredentials : Option String

/-- `process.env.GOOGLE_CREDENTIALS || '\x7b\x7d'`: the JavaScript `||`
replaces both an unset variable and the (falsy) empty string by the
two-character object literal. -/
def credentialsString (env : Env) : String :=
  match env.googleCredentials with
  | none => "\x7b\x7d"
  | some s => if s = "" then "\x7b\x7d" else s

/-- `initializeGoogleSheets` of `src/index.js` lines 16-30, reduced to its
observable outcome: the client is non-null (`true`) iff the `try` block
does not throw.  `JSON.parse` throws exactly on invalid JSON; the
`GoogleAuth` and `google.sheets` constructors store their options without
touching the credentials (authentication is lazy), so they never throw
here. -/
def initializeGoogleSheets (env : Env) : Bool :=
  jsonParseOk (credentialsString env)

/-- Outcome of the upstream `sheets.spreadsheets.values.get` call:
either it resolves (with `response.data.values`, possibly `undefined`),
or it rejects with an error whose `message` is recorded. -/
inductive FetchResult where
  | ok (data : Option (List Row))
  | err (message : String)

/-- The `/api/sheet-data` handler of `src/index.js` lines 33-106, as a
function of the environment, the cache state, the current time and the
upstream oracle; returns the response and the new cache state. -/
def sheetDataHandler (env : Env) (c : CacheState) (now : Nat) (fetch : FetchResult) :
    Response × CacheState :=
  match cacheGet c now with
  | some cached => (⟨200, cached, false⟩, c)
  | none =>
    if initializeGoogleSheets env then
      match fetch with
      | FetchResult.err m =>
        (⟨500, [("error", JVal.str "Failed to fetch data from Google Sheets"),
                ("details", JVal.str m)], false⟩, c)
      | FetchResult.ok data =>
        let values := data.getD []
        if values.length = 0 then
          (⟨404, [("error", JVal.str "No data found in spreadsheet")], false⟩, c)
        else
          let formattedData := formattedBody (formatValues values)
          (⟨200, formattedData, true⟩, cacheSet formattedData now)
    else
      (⟨200, mockBody, false⟩, c)

/-- The `/api/refresh-cache` handler of `src/index.js` lines 109-112. -/
def refreshCacheHandler (c : CacheState) : Response × CacheState :=
  (⟨200, [("status", JVal.str "Cache cleared")], false⟩, cacheDel c)

/-- Sanity: the defaulted credential blob is valid JSON, a word is not. -/
theorem jsonParseOk_sanity : jsonParseOk "\x7b\x7d" = true ∧ jsonParseOk "oops" = false := by
  decide

/-- Sanity: `parseFloat` accepts the Infinity literal and rejects text. -/
theorem parseFloat_sanity : parseFloat "Infinity" = some JsNum.posInf ∧ parseFloat "abc" = none := by
  decide

/-- Sanity (spec §8 Scenario B): of the three data rows only the numeric
"100" survives formatting. -/
theorem formatValues_scenarioB_length :
    (formatValues [["Date", "Price"], ["2024-01-01", "100"], ["2024-01-02", "abc"], ["2024-01-03", ""]]).length = 1 := by
  decide

theorem pushRow_eq_rowValue (c : List JsNum) (row : Row) :
    pushRow c row =
      match rowValue row with
      | none => c
      | some v => c ++ [v] := by
  unfold pushRow rowValue
  cases row[1]? with
  | none => rfl
  | some cell =>
    by_cases hc : cell = ""
    · simp [hc]
    · cases parseFloat cell <;> simp [hc]

theorem foldl_pushRow (rows : List Row) (acc : List JsNum) :
    rows.foldl pushRow acc = acc ++ rows.filterMap rowValue := by
  induction rows generalizing acc with
  | nil => simp
  | cons r rs ih =>
    rw [List.foldl_cons, pushRow_eq_rowValue, List.filterMap_cons]
    cases hr : rowValue r with
    | none => simp [hr, ih]
    | some v => simp [hr, ih]

/-- Claim C3 (amended): the formatter output equals, in order, the
leading-numeric-prefix parse of the cell at index 1 of each row after the
first, restricted to rows where that cell is defined, non-empty, and does
not parse to NaN; the first row is always dropped.  (Non-finite parses
such as Infinity ARE included, because the code only tests `isNaN`.) -/
theorem C3_formatter_refines_spec (values : List Row) :
    formatValues values = specValues values := by
  unfold formatValues specValues
  simpa using foldl_pushRow (values.drop 1) []

/-- Claim C3 counterexample: a column-B cell "Infinity" parses to a
non-finite, non-NaN value, and the formatter DOES include it, contrary to
the claim's "rows whose cell parses to a non-finite value contribute
nothing". -/
theorem C3_counterexample :
    formatValues [["Date", "Price"], ["2024-01-04", "Infinity"]] = [JsNum.posInf] ∧
    claimFiniteValues [["Date", "Price"], ["2024-01-04", "Infinity"]] = [] ∧
    formatValues [["Date", "Price"], ["2024-01-04", "Infinity"]]
      ≠ claimFiniteValues [["Date", "Price"], ["2024-01-04", "Infinity"]] := by
  decide

/-- Claim C1 counterexample: with the cache empty and GOOGLE_CREDENTIALS
unset (absent), the handler does NOT take the mock path: JSON.parse
succeeds on the defaulted two-character object literal, the client is
non-null, and the request proceeds to the upstream fetch (here an
erroring fetch yields a 500, not the mock 200 body). -/
theorem C1_counterexample :
    initializeGoogleSheets ⟨none⟩ = true ∧
    (sheetDataHandler ⟨none⟩ none 0 (FetchResult.err "network down")).1.status = 500 ∧
    (sheetDataHandler ⟨none⟩ none 0 (FetchResult.err "network down")).1.body ≠ mockBody := by
  decide

/-- Claim C1 (amended): the degraded mock path is taken exactly when
GOOGLE_CREDENTIALS is SET to a non-empty string that is not valid JSON;
there it responds 200 with the fixed series, writes nothing to the cache,
and a repeated request takes the same path.  When the variable is unset,
JSON.parse succeeds on the defaulted object literal, the client is
non-null, and the handler proceeds to the upstream fetch instead (an
upstream error then surfaces as a 500). -/
theorem C1_mock_on_malformed_credentials (s m : String) (c : CacheState) (now : Nat)
    (f : FetchResult) (hs : s ≠ "") (hbad : jsonParseOk s = false)
    (hmiss : cacheGet c now = none) :
    sheetDataHandler ⟨some s⟩ c now f = (⟨200, mockBody, false⟩, c) ∧
    sheetDataHandler ⟨some s⟩ (sheetDataHandler ⟨some s⟩ c now f).2 now f
      = sheetDataHandler ⟨some s⟩ c now f ∧
    initializeGoogleSheets ⟨none⟩ = true ∧
    (sheetDataHandler ⟨none⟩ c now (FetchResult.err m)).1.status = 500 := by
  have hinit : initializeGoogleSheets ⟨some s⟩ = false := by
    unfold initializeGoogleSheets credentialsString
    simp [hs, hbad]
  have hinitd : initializeGoogleSheets ⟨none⟩ = true := by decide
  have h1 : sheetDataHandler ⟨some s⟩ c now f = (⟨200, mockBody, false⟩, c) := by
    simp [sheetDataHandler, hmiss, hinit]
  refine ⟨h1, ?_, hinitd, ?_⟩
  · rw [h1]; exact h1
  · simp [sheetDataHandler, hmiss, hinitd]

theorem C1_witness :
    sheetDataHandler ⟨some "oops"⟩ none 0 (FetchResult.ok none) = (⟨200, mockBody, false⟩, none) ∧
    sheetDataHandler ⟨some "oops"⟩ (sheetDataHandler ⟨some "oops"⟩ none 0 (FetchResult.ok none)).2 0 (FetchResult.ok none)
      = sheetDataHandler ⟨some "oops"⟩ none 0 (FetchResult.ok none) ∧
    initializeGoogleSheets ⟨none⟩ = true ∧
    (sheetDataHandler ⟨none⟩ none 0 (FetchResult.err "x")).1.status = 500 :=
  C1_mock_on_malformed_credentials "oops" "x" none 0 (FetchResult.ok none)
    (by decide) (by decide) rfl

/-- Claim C2 counterexample: a successful (200) response — here the mock
fallback — has body fields named "s" and "c", not "status" and
"values". -/
theorem C2_counterexample :
    (sheetDataHandler ⟨some "oops"⟩ none 0 (FetchResult.err "x")).1.status = 200 ∧
    ((sheetDataHandler ⟨some "oops"⟩ none 0 (FetchResult.err "x")).1.body).map Prod.fst
      = ["s", "c"] ∧
    ((sheetDataHandler ⟨some "oops"⟩ none 0 (FetchResult.err "x")).1.body).map Prod.fst
      ≠ ["status", "values"] := by
  decide

/-- Claim C2 (amended): every successful (200) response produced on a
cache miss of /api/sheet-data, including the mock fallback, has exactly
the shape with the status field named "s" and the number-sequence field
named "c". -/
theorem C2_success_body_fields (env : Env) (c : CacheState) (now : Nat) (f : FetchResult)
    (hmiss : cacheGet c now = none)
    (h200 : (sheetDataHandler env c now f).1.status = 200) :
    ∃ vs, (sheetDataHandler env c now f).1.body
      = [("s", JVal.str "ok"), ("c", JVal.nums vs)] := by
  cases hi : initializeGoogleSheets env with
  | false =>
    exact ⟨mockValues, by simp [sheetDataHandler, hmiss, hi, mockBody]⟩
  | true =>
    cases f with
    | err m => exact absurd h200 (by simp [sheetDataHandler, hmiss, hi])
    | ok data =>
      by_cases hl : (data.getD []).length = 0
      · exact absurd h200 (by simp [sheetDataHandler, hmiss, hi, hl])
      · exact ⟨formatValues (data.getD []),
          by simp [sheetDataHandler, hmiss, hi, hl, formattedBody]⟩

theorem C2_witness :
    ∃ vs, (sheetDataHandler ⟨some "oops"⟩ none 0 (FetchResult.err "x")).1.body
      = [("s", JVal.str "ok"), ("c", JVal.nums vs)] :=
  C2_success_body_fields ⟨some "oops"⟩ none 0 (FetchResult.err "x") rfl (by decide)

/-- Claim C4 (confirmed): after a successful fetch-and-cache at time t1,
a second request at any time t2 within the TTL window responds 200 with
exactly the first response's body, leaves the cache unchanged, and is
independent of the upstream oracle `f` (no upstream call is observable). -/
theorem C4_cached_within_ttl (env : Env) (c : CacheState) (t1 t2 : Nat) (rows : List Row)
    (f : FetchResult) (hmiss : cacheGet c t1 = none)
    (hinit : initializeGoogleSheets env = true) (hne : rows ≠ []) (ht : t2 ≤ t1 + 300) :
    sheetDataHandler env (sheetDataHandler env c t1 (FetchResult.ok (some rows))).2 t2 f
      = (⟨200, (sheetDataHandler env c t1 (FetchResult.ok (some rows))).1.body, false⟩,
         (sheetDataHandler env c t1 (FetchResult.ok (some rows))).2) := by
  have h1 : sheetDataHandler env c t1 (FetchResult.ok (some rows))
      = (⟨200, formattedBody (formatValues rows), true⟩,
         cacheSet (formattedBody (formatValues rows)) t1) := by
    simp [sheetDataHandler, hmiss, hinit, List.length_eq_zero, hne]
  rw [h1]
  simp [sheetDataHandler, cacheGet, cacheSet, ht]

theorem C4_witness :
    sheetDataHandler ⟨none⟩
        (sheetDataHandler ⟨none⟩ none 0
          (FetchResult.ok (some [["Date", "Price"], ["2024-01-01", "100"]]))).2
        100 (FetchResult.err "down")
      = (⟨200,
          (sheetDataHandler ⟨none⟩ none 0
            (FetchResult.ok (some [["Date", "Price"], ["2024-01-01", "100"]]))).1.body,
          false⟩,
         (sheetDataHandler ⟨none⟩ none 0
           (FetchResult.ok (some [["Date", "Price"], ["2024-01-01", "100"]]))).2) :=
  C4_cached_within_ttl ⟨none⟩ none 0 100 [["Date", "Price"], ["2024-01-01", "100"]]
    (FetchResult.err "down") rfl (by decide) (by decide) (by decide)

/-- Claim C5 (confirmed): on a cache miss with an available client, a
successful upstream fetch returning zero raw rows yields HTTP 404 with
the "No data found in spreadsheet" error body, and the cache is left
unchanged. -/
theorem C5_zero_rows_404 (env : Env) (c : CacheState) (now : Nat)
    (hmiss : cacheGet c now = none) (hinit : initializeGoogleSheets env = true) :
    sheetDataHandler env c now (FetchResult.ok (some []))
      = (⟨404, [("error", JVal.str "No data found in spreadsheet")], false⟩, c) := by
  simp [sheetDataHandler, hmiss, hinit]

theorem C5_witness :
    sheetDataHandler ⟨none⟩ none 0 (FetchResult.ok (some []))
      = (⟨404, [("error", JVal.str "No data found in spreadsheet")], false⟩, none) :=
  C5_zero_rows_404 ⟨none⟩ none 0 rfl (by decide)

/-- Claim C6 (confirmed): on a cache miss with an available client, a
fetch returning exactly one raw row (a header only) responds with success
and an empty value list — the s/c body with an empty series — not with a
404; the empty-after-header case is distinct from the zero-rows case. -/
theorem C6_header_only_success (env : Env) (c : CacheState) (now : Nat) (header : Row)
    (hmiss : cacheGet c now = none) (hinit : initializeGoogleSheets env = true) :
    sheetDataHandler env c now (FetchResult.ok (some [header]))
      = (⟨200, [("s", JVal.str "ok"), ("c", JVal.nums [])], true⟩,
         cacheSet [("s", JVal.str "ok"), ("c", JVal.nums [])] now) ∧
    (sheetDataHandler env c now (FetchResult.ok (some [header]))).1.status ≠ 404 := by
  have h : sheetDataHandler env c now (FetchResult.ok (some [header]))
      = (⟨200, [("s", JVal.str "ok"), ("c", JVal.nums [])], true⟩,
         cacheSet [("s", JVal.str "ok"), ("c", JVal.nums [])] now) := by
    simp [sheetDataHandler, hmiss, hinit, formatValues, formattedBody]
  exact ⟨h, by rw [h]; simp⟩

theorem C6_witness :
    sheetDataHandler ⟨none⟩ none 0 (FetchResult.ok (some [["Date", "Price"]]))
      = (⟨200, [("s", JVal.str "ok"), ("c", JVal.nums [])], true⟩,
         cacheSet [("s", JVal.str "ok"), ("c", JVal.nums [])] 0) ∧
    (sheetDataHandler ⟨none⟩ none 0 (FetchResult.ok (some [["Date", "Price"]]))).1.status ≠ 404 :=
  C6_header_only_success ⟨none⟩ none 0 ["Date", "Price"] rfl (by decide)

/-- Claim C7 (confirmed): on a cache miss with an available client, an
upstream error with message m responds HTTP 500 with the fixed error text
and m as details, and the cache is left unchanged. -/
theorem C7_upstream_error_500 (env : Env) (c : CacheState) (now : Nat) (m : String)
    (hmiss : cacheGet c now = none) (hinit : initializeGoogleSheets env = true) :
    sheetDataHandler env c now (FetchResult.err m)
      = (⟨500, [("error", JVal.str "Failed to fetch data from Google Sheets"),
                ("details", JVal.str m)], false⟩, c) := by
  simp [sheetDataHandler, hmiss, hinit]

theorem C7_witness :
    sheetDataHandler ⟨none⟩ none 0 (FetchResult.err "socket hang up")
      = (⟨500, [("error", JVal.str "Failed to fetch data from Google Sheets"),
                ("details", JVal.str "socket hang up")], false⟩, none) :=
  C7_upstream_error_500 ⟨none⟩ none 0 "socket hang up" rfl (by decide)

/-- Claim C8 (confirmed): /api/refresh-cache always deletes the
"sheetData" entry (also when absent), responds 200 with
status "Cache cleared", and is idempotent. -/
theorem C8_refresh_cache_idempotent (c : CacheState) :
    refreshCacheHandler c
      = (⟨200, [("status", JVal.str "Cache cleared")], false⟩, (none : CacheState)) ∧
    refreshCacheHandler (refreshCacheHandler c).2 = refreshCacheHandler c := by
  exact ⟨rfl, rfl⟩

/-- Claim C9 (confirmed): the Access-Control-Allow-Origin header is set
exactly on the fresh-fetch success path (cache miss, available client,
fetch resolved, nonempty raw rows); cached, mock, 404 and 500 responses
carry no such header, so within one TTL window the same body can be
served once with and once without the header. -/
theorem C9_cors_header_only_fresh_success :
    (∀ env c now f, ((sheetDataHandler env c now f).1.corsHeader = true ↔
      (cacheGet c now = none ∧ initializeGoogleSheets env = true ∧
        ∃ d, f = FetchResult.ok d ∧ d.getD [] ≠ []))) ∧
    (sheetDataHandler ⟨none⟩ none 0
        (FetchResult.ok (some [["Date", "Price"], ["2024-01-01", "100"]]))).1.body
      = (sheetDataHandler ⟨none⟩
          (sheetDataHandler ⟨none⟩ none 0
            (FetchResult.ok (some [["Date", "Price"], ["2024-01-01", "100"]]))).2
          100 (FetchResult.err "down")).1.body ∧
    (sheetDataHandler ⟨none⟩ none 0
        (FetchResult.ok (some [["Date", "Price"], ["2024-01-01", "100"]]))).1.corsHeader
      = true ∧
    (sheetDataHandler ⟨none⟩
        (sheetDataHandler ⟨none⟩ none 0
          (FetchResult.ok (some [["Date", "Price"], ["2024-01-01", "100"]]))).2
        100 (FetchResult.err "down")).1.corsHeader = false := by
  refine ⟨?_, rfl, rfl, rfl⟩
  intro env c now f
  cases hc : cacheGet c now with
  | some v => simp [sheetDataHandler, hc]
  | none =>
    cases hi : initializeGoogleSheets env with
    | false => simp [sheetDataHandler, hc, hi]
    | true =>
      cases f with
      | err m => simp [sheetDataHandler, hc, hi]
      | ok d =>
        by_cases hl : (d.getD []).length = 0
        · rw [List.length_eq_zero] at hl
          simp [sheetDataHandler, hc, hi, hl]
        · rw [List.length_eq_zero] at hl
          simp [sheetDataHandler, hc, hi, hl]

/-- Claim C10 (confirmed): when the upstream response carries no values
field (`response.data.values` undefined), the handler coalesces it to an
empty row list and takes exactly the zero-rows path: HTTP 404 with the
"No data found in spreadsheet" body, cache unchanged. -/
theorem C10_undefined_values_404 (env : Env) (c : CacheState) (now : Nat)
    (hmiss : cacheGet c now = none) (hinit : initializeGoogleSheets env = true) :
    sheetDataHandler env c now (FetchResult.ok none)
      = (⟨404, [("error", JVal.str "No data found in spreadsheet")], false⟩, c) ∧
    sheetDataHandler env c now (FetchResult.ok none)
      = sheetDataHandler env c now (FetchResult.ok (some [])) := by
  constructor <;> simp [sheetDataHandler, hmiss, hinit]

theorem C10_witness :
    sheetDataHandler ⟨none⟩ none 0 (FetchResult.ok none)
      = (⟨404, [("error", JVal.str "No data found in spreadsheet")], false⟩, none) ∧
    sheetDataHandler ⟨none⟩ none 0 (FetchResult.ok none)
      = sheetDataHandler ⟨none⟩ none 0 (FetchResult.ok (some [])) :=
  C10_undefined_values_404 ⟨none⟩ none 0 rfl (by decide)
